import Mathlib

/-
Verification of the transcription CLI (scripts/transcribe.py) and HTTP
server (scripts/whisper_server.py) against their specification.

The two Python scripts are shallowly embedded below.  The external
faster-whisper inference library is modelled as an oracle parameter
(a function from the temp-file path and the decoding parameters to either
a list of segments plus metadata, or an exception message), and the Python
standard library pieces the scripts lean on (wave.open, tempfile,
http.server request dispatch, int()) are modelled as parameters or small
faithful functions, each noted in its doc comment.  File-system effects
(temp-file creation/deletion), body reads and inference invocations are
recorded in an explicit event trace so that resource claims can be stated.
Python float values (duration, language probability) are carried as Rat:
the scripts never compute with them, they only pass them through.
stdout/stderr diagnostics inside helper functions are not modelled except
where a claim is about them (server startup logging).
-/

set_option autoImplicit false

/-- Python whitespace test used by str.strip: space, tab, newline, carriage
return, vertical tab, form feed (ASCII subset of Python's rule, which is all
that appears here). -/
def pyIsSpace (c : Char) : Bool :=
  c == ' ' || c == '\t' || c == '\n' || c == '\r' || c == Char.ofNat 11 || c == Char.ofNat 12

/-- Model of Python str.strip(): drop whitespace from both ends. -/
def pyStrip (s : String) : String :=
  ⟨((s.data.dropWhile pyIsSpace).reverse.dropWhile pyIsSpace).reverse⟩

/-- True when the first list is an initial run of the second. -/
def listLeads : List Char → List Char → Bool
  | [], _ => true
  | _ :: _, [] => false
  | a :: as, b :: bs => a == b && listLeads as bs

/-- Model of Python substring membership (needle in haystack). -/
def containsSub (needle : List Char) : List Char → Bool
  | [] => listLeads needle []
  | c :: t => listLeads needle (c :: t) || containsSub needle t

/-- String starts with the given leading text. -/
def strBeginsWith (lead s : String) : Bool :=
  listLeads lead.data s.data

/-- Accumulate decimal digits; none when a non-digit appears. -/
def pyDigitsAux : List Char → Nat → Option Nat
  | [], acc => some acc
  | c :: cs, acc =>
    if c.isDigit then pyDigitsAux cs (acc * 10 + (c.toNat - 48)) else none

/-- Error message raised by Python int() on a bad literal. -/
def intErrMsg (s : String) : String :=
  "invalid literal for int() with base 10: \x27" ++ s ++ "\x27"

/-- Model of Python int(str): strip whitespace, optional sign, then decimal
digits (digit-group underscores are not modelled; none appear in any claim).
Returns the ValueError message on failure. -/
def pyIntOfStr (s : String) : Except String Int :=
  let t := (pyStrip s).data
  let sd : Int × List Char :=
    match t with
    | '+' :: rest => (1, rest)
    | '-' :: rest => (-1, rest)
    | l => (1, l)
  match sd.2 with
  | [] => Except.error (intErrMsg s)
  | _ =>
    match pyDigitsAux sd.2 0 with
    | some n => Except.ok (sd.1 * Int.ofNat n)
    | none => Except.error (intErrMsg s)

/-- Model of int(self.headers.get('Content-Length', 0)): an absent header
yields the int 0 (so int() trivially succeeds); a present header value is
parsed by int(), which may raise. whisper_server.py line 72. -/
def contentLengthOf (h : Option String) : Except String Int :=
  match h with
  | none => Except.ok 0
  | some s => pyIntOfStr s

/-- One recognized segment returned by model.transcribe. -/
structure Segment where
  text : String
  deriving DecidableEq

/-- Metadata record (info) returned by model.transcribe. -/
structure TranscribeInfo where
  language : String
  language_probability : Rat
  duration : Rat
  deriving DecidableEq

/-- Keyword arguments passed to model.transcribe.  A none field means the
call site does not pass that keyword (the library then uses its own
default). -/
structure TranscribeParams where
  language : String
  beam_size : Nat
  best_of : Option Nat
  vad_filter : Bool
  min_silence_duration_ms : Nat
  speech_pad_ms : Option Nat
  word_timestamps : Option Bool
  condition_on_previous_text : Option Bool
  initial_prompt : Option String
  no_speech_threshold : Option Rat
  deriving DecidableEq

/-- Decoding parameters of the CLI call site, transcribe.py lines 55-63:
language ja, beam_size 5, vad_filter with min_silence_duration_ms 500, and
no other keyword passed. -/
def cliParams : TranscribeParams :=
  { language := "ja"
    beam_size := 5
    best_of := none
    vad_filter := true
    min_silence_duration_ms := 500
    speech_pad_ms := none
    word_timestamps := none
    condition_on_previous_text := none
    initial_prompt := none
    no_speech_threshold := none }

/-- Decoding parameters of the server call site, whisper_server.py lines
90-104. -/
def serverParams : TranscribeParams :=
  { language := "ja"
    beam_size := 5
    best_of := some 5
    vad_filter := true
    min_silence_duration_ms := 1000
    speech_pad_ms := some 400
    word_timestamps := some false
    condition_on_previous_text := some false
    initial_prompt := some "以下は、マイクからの入力音声に対する、ノイズを除去した日本語の文字起こしです。"
    no_speech_threshold := some (6 / 10 : Rat) }

/-- The inference library, abstracted: given the temp-file path and the
decoding parameters it either returns (segments, info) or raises an
exception carried as a message string. -/
abbrev Oracle := String → TranscribeParams → Except String (List Segment × TranscribeInfo)

/-- The wave.open sample-rate probe of transcribe.py lines 38-43,
abstracted: returns the frame rate or raises (e.g. wave.Error on a
non-WAV payload). -/
abbrev WaveCheck := List Nat → Except String Int

/-- Externally visible effects of one request/one CLI run. -/
inductive Event where
  | readBody (n : Int)
  | createTemp (path : String) (contents : List Nat)
  | invoke (path : String) (params : TranscribeParams)
  | deleteTemp (path : String)
  deriving DecidableEq

/-- True exactly on inference-invocation events. -/
def isInvoke : Event → Bool
  | Event.invoke _ _ => true
  | _ => false

/-- Replay the temp-file events over a starting disk state (list of
existing temp paths); createTemp adds a path, deleteTemp removes it. -/
def runDisk : List String → List Event → List String
  | disk, [] => disk
  | disk, Event.createTemp p _ :: es => runDisk (p :: disk) es
  | disk, Event.deleteTemp p :: es => runDisk (disk.erase p) es
  | disk, Event.readBody _ :: es => runDisk disk es
  | disk, Event.invoke _ _ :: es => runDisk disk es

/-- Flat JSON result record of both scripts: success true carries text,
language, optional language_probability (server only) and duration;
success false carries the error string. -/
inductive TranscriptionResult where
  | ok (text : String) (language : String) (language_probability : Option Rat) (duration : Rat)
  | err (error : String)
  deriving DecidableEq

/-- Value of the success field in the serialized JSON. -/
def TranscriptionResult.successField : TranscriptionResult → Bool
  | TranscriptionResult.ok _ _ _ _ => true
  | TranscriptionResult.err _ => false

/-- Body of the GET /health response, whisper_server.py lines 150-155. -/
structure HealthBody where
  status : String
  model : String
  device : String
  compute_type : String
  deriving DecidableEq

/-- HTTP response sent by the server: a transcription JSON (via
send_json_response or send_error_response, both with their status
argument recorded), the health JSON, or a bare HTTP error page
(send_error / the base-class dispatch). -/
inductive ServerResponse where
  | transcription (status : Nat) (result : TranscriptionResult)
  | health (status : Nat) (body : HealthBody)
  | httpError (status : Nat)
  deriving DecidableEq

/-- HTTP status line of a response. -/
def ServerResponse.statusCode : ServerResponse → Nat
  | ServerResponse.transcription s _ => s
  | ServerResponse.health s _ => s
  | ServerResponse.httpError s => s

/-- send_error_response, whisper_server.py lines 167-174: status 200 with
a success-false JSON body. -/
def errorResponse (msg : String) : ServerResponse :=
  ServerResponse.transcription 200 (TranscriptionResult.err msg)

/-- Hard-coded hallucination blocklist, whisper_server.py lines 116-122. -/
def hallucinations : List String :=
  ["ご視聴ありがとうございました", "チャンネル登録", "高評価", "Subtitles by", "Amara.org"]

/-- The filter loop of whisper_server.py lines 124-127: scan the list in
order; on the first phrase contained in the text, blank the whole text and
stop. -/
def applyHallucinationFilter : List String → String → String
  | [], text => text
  | h :: hs, text =>
    if containsSub h.data text.data then "" else applyHallucinationFilter hs text

/-- One HTTP request as the handler sees it. -/
structure HttpRequest where
  method : String
  path : String
  contentLength : Option String
  body : List Nat
  deriving DecidableEq

/-- Startup configuration and host facts of the server process:
the WHISPER_MODEL / WHISPER_DEVICE / WHISPER_COMPUTE_TYPE values
(whisper_server.py lines 24-26), whether import torch succeeds, and
whether torch.cuda.is_available() returns true. -/
structure ServerEnv where
  modelSize : String
  deviceCfg : String
  computeCfg : String
  torchInstalled : Bool
  cudaAvailable : Bool
  deriving DecidableEq

/-- get_device, whisper_server.py lines 30-43: when cuda is configured,
fall back to cpu if torch is missing or reports no CUDA device; otherwise
use the configured device as-is.  (Its print diagnostics are not
modelled.) -/
def get_device (e : ServerEnv) : String :=
  if e.deviceCfg = "cuda" then
    if e.torchInstalled then
      if e.cudaAvailable then "cuda" else "cpu"
    else "cpu"
  else e.deviceCfg

/-- get_compute_type, whisper_server.py lines 45-48. -/
def get_compute_type (e : ServerEnv) (device : String) : String :=
  if device = "cpu" then "int8" else e.computeCfg

/-- Module-level actual_device, whisper_server.py line 52. -/
def actual_device (e : ServerEnv) : String :=
  get_device e

/-- Module-level actual_compute_type, whisper_server.py line 53. -/
def actual_compute_type (e : ServerEnv) : String :=
  get_compute_type e (actual_device e)

/-- Output streams of the server process. -/
inductive OutStream where
  | stdout
  | stderr
  deriving DecidableEq

/-- Model-load block of whisper_server.py lines 51-66.  The WhisperModel
constructor is abstracted as the load argument.  Every print goes to
stdout.  On an exception the process calls sys.exit(1), modelled as the
Except.error 1 outcome, reached before the HTTPServer is ever constructed
(main, lines 181-198); Except.ok means the process proceeds to serving. -/
def serverStartup (e : ServerEnv) (load : Except String Unit) : List (OutStream × String) × Except Nat Unit :=
  let logs0 : List (OutStream × String) :=
    [(OutStream.stdout, "[whisper-server] Loading model: " ++ e.modelSize),
     (OutStream.stdout, "[whisper-server] Device: " ++ actual_device e ++ ", Compute type: " ++ actual_compute_type e)]
  match load with
  | Except.ok _ =>
    (logs0 ++ [(OutStream.stdout, "[whisper-server] Model loaded successfully")], Except.ok ())
  | Except.error msg =>
    (logs0 ++ [(OutStream.stdout, "[whisper-server] Failed to load model: " ++ msg)], Except.error 1)

/-- do_POST, whisper_server.py lines 70-145.  tmpPath is the fresh name
produced by tempfile.NamedTemporaryFile; rfile.read(n) is modelled as
taking the first n bytes of the request body (negative n does not occur
in any claim).  The inner try/finally deletes the temp file on both the
ok and error branch of the inference call; the outer try/except converts
any exception (int() failure or inference failure) into a 200
success-false JSON via send_error_response. -/
def do_POST (o : Oracle) (tmpPath : String) (req : HttpRequest) : ServerResponse × List Event :=
  match contentLengthOf req.contentLength with
  | Except.error e => (errorResponse e, [])
  | Except.ok n =>
    if n = 0 then (errorResponse "No audio data received", [])
    else
      let wav_data := req.body.take n.toNat
      if wav_data.length < 44 then
        (errorResponse "Invalid WAV data (too short)", [Event.readBody n])
      else
        match o tmpPath serverParams with
        | Except.ok (segs, info) =>
          let text := pyStrip (String.join (segs.map Segment.text))
          let text := applyHallucinationFilter hallucinations text
          (ServerResponse.transcription 200
             (TranscriptionResult.ok text info.language (some info.language_probability) info.duration),
           [Event.readBody n, Event.createTemp tmpPath wav_data,
            Event.invoke tmpPath serverParams, Event.deleteTemp tmpPath])
        | Except.error e =>
          (errorResponse e,
           [Event.readBody n, Event.createTemp tmpPath wav_data,
            Event.invoke tmpPath serverParams, Event.deleteTemp tmpPath])

/-- do_GET, whisper_server.py lines 147-157: /health gets the status JSON
with the resolved device and compute type, anything else send_error(404). -/
def do_GET (e : ServerEnv) (path : String) : ServerResponse :=
  if path = "/health" then
    ServerResponse.health 200
      { status := "ok"
        model := e.modelSize
        device := actual_device e
        compute_type := actual_compute_type e }
  else
    ServerResponse.httpError 404

/-- Request dispatch.  Modelled from the Python standard library
http.server BaseHTTPRequestHandler.handle_one_request: the method name is
mapped to a do_METHOD attribute of the handler class; TranscribeHandler
defines only do_POST and do_GET, so every other method receives
send_error(501, unsupported method) from the base class. -/
def handleRequest (o : Oracle) (tmpPath : String) (e : ServerEnv) (req : HttpRequest) : ServerResponse × List Event :=
  if req.method = "POST" then do_POST o tmpPath req
  else if req.method = "GET" then (do_GET e req.path, [])
  else (ServerResponse.httpError 501, [])

/-- transcribe_wav, transcribe.py lines 33-75.  waveCheck models the
wave.open sample-rate probe (its stderr warning for non-16kHz rates is
not modelled); if it raises, the exception propagates before any temp
file is created.  Otherwise the bytes go to a fresh temp file, the oracle
is invoked with the CLI parameters, and the finally block deletes the
file on both branches.  On success the segments are concatenated in
order with no separator and stripped. -/
def transcribe_wav (wc : WaveCheck) (o : Oracle) (tmpPath : String) (wav_bytes : List Nat) :
    Except String TranscriptionResult × List Event :=
  match wc wav_bytes with
  | Except.error e => (Except.error e, [])
  | Except.ok _ =>
    match o tmpPath cliParams with
    | Except.ok (segs, info) =>
      let text := String.join (segs.map Segment.text)
      (Except.ok (TranscriptionResult.ok (pyStrip text) info.language none info.duration),
       [Event.createTemp tmpPath wav_bytes,
        Event.invoke tmpPath cliParams, Event.deleteTemp tmpPath])
    | Except.error e =>
      (Except.error e,
       [Event.createTemp tmpPath wav_bytes,
        Event.invoke tmpPath cliParams, Event.deleteTemp tmpPath])

/-- main, transcribe.py lines 77-92: payloads under 44 bytes are rejected
with the fixed message before transcribe_wav is called; otherwise any
exception from transcribe_wav becomes the error string of a
success-false result. -/
def cliMain (wc : WaveCheck) (o : Oracle) (tmpPath : String) (stdinBytes : List Nat) :
    TranscriptionResult × List Event :=
  if stdinBytes.length < 44 then
    (TranscriptionResult.err "Invalid WAV data", [])
  else
    match transcribe_wav wc o tmpPath stdinBytes with
    | (Except.ok r, evs) => (r, evs)
    | (Except.error e, evs) => (TranscriptionResult.err e, evs)

/-- Wave probe that reports a 16kHz rate for any payload. -/
def waveOk16k : WaveCheck := fun _ => Except.ok 16000

/-- Oracle that always raises. -/
def oracleBoom : Oracle := fun _ _ => Except.error "boom"

/-- Oracle returning one fixed segment with fixed metadata. -/
def oracleOfText (t : String) : Oracle := fun _ _ =>
  Except.ok ([{ text := t }], { language := "ja", language_probability := 9 / 10, duration := 3 })

/-- Concrete startup environment: cuda requested, torch present but no
CUDA device. -/
def envCudaOff : ServerEnv :=
  { modelSize := "small"
    deviceCfg := "cuda"
    computeCfg := "float16"
    torchInstalled := true
    cudaAvailable := false }

/-- POST with a 44-byte body and matching Content-Length. -/
def req44 : HttpRequest :=
  { method := "POST", path := "/", contentLength := some "44", body := List.replicate 44 0 }

/-- POST with a 10-byte body and matching Content-Length. -/
def req10 : HttpRequest :=
  { method := "POST", path := "/", contentLength := some "10", body := List.replicate 10 0 }

/-- POST with an empty body and Content-Length 0. -/
def reqEmpty : HttpRequest :=
  { method := "POST", path := "/", contentLength := some "0", body := [] }

/-- POST with no Content-Length header. -/
def reqNoLen : HttpRequest :=
  { method := "POST", path := "/", contentLength := none, body := [] }

/-- POST with a non-numeric Content-Length header. -/
def reqBadLen : HttpRequest :=
  { method := "POST", path := "/", contentLength := some "abc", body := List.replicate 44 0 }

/-- PUT request: a method the handler class defines no do_PUT for. -/
def reqPut : HttpRequest :=
  { method := "PUT", path := "/", contentLength := none, body := [] }

/-- GET to a path other than /health. -/
def reqGetFoo : HttpRequest :=
  { method := "GET", path := "/foo", contentLength := none, body := [] }

/-- Unfolding of the filter loop: the text is blanked exactly when some
listed phrase occurs in it. -/
theorem applyHallucinationFilter_eq (hs : List String) (t : String) :
    applyHallucinationFilter hs t =
      if hs.any (fun h => containsSub h.data t.data) then "" else t := by
  induction hs with
  | nil => rfl
  | cons h hs ih =>
    by_cases hc : containsSub h.data t.data
    · simp [applyHallucinationFilter, hc]
    · simp [applyHallucinationFilter, hc, ih]

/-- do_POST when int() raises on the Content-Length value. -/
theorem do_POST_parseErr (o : Oracle) (p : String) (req : HttpRequest) (msg : String)
    (h1 : contentLengthOf req.contentLength = Except.error msg) :
    do_POST o p req = (errorResponse msg, []) := by
  simp [do_POST, h1]

/-- do_POST when the Content-Length resolves to 0. -/
theorem do_POST_zero (o : Oracle) (p : String) (req : HttpRequest)
    (h1 : contentLengthOf req.contentLength = Except.ok 0) :
    do_POST o p req = (errorResponse "No audio data received", []) := by
  simp [do_POST, h1]

/-- do_POST when the bytes read are under the 44-byte floor. -/
theorem do_POST_short (o : Oracle) (p : String) (req : HttpRequest) (n : Int)
    (h1 : contentLengthOf req.contentLength = Except.ok n)
    (h2 : ¬ n = 0)
    (h3 : (req.body.take n.toNat).length < 44) :
    do_POST o p req = (errorResponse "Invalid WAV data (too short)", [Event.readBody n]) := by
  simp only [do_POST, h1]
  rw [if_neg h2, if_pos h3]

/-- do_POST when the inference call succeeds. -/
theorem do_POST_run (o : Oracle) (p : String) (req : HttpRequest) (n : Int)
    (segs : List Segment) (info : TranscribeInfo)
    (h1 : contentLengthOf req.contentLength = Except.ok n)
    (h2 : ¬ n = 0)
    (h3 : ¬ (req.body.take n.toNat).length < 44)
    (h4 : o p serverParams = Except.ok (segs, info)) :
    do_POST o p req =
      (ServerResponse.transcription 200
        (TranscriptionResult.ok
          (applyHallucinationFilter hallucinations (pyStrip (String.join (segs.map Segment.text))))
          info.language (some info.language_probability) info.duration),
       [Event.readBody n, Event.createTemp p (req.body.take n.toNat),
        Event.invoke p serverParams, Event.deleteTemp p]) := by
  simp only [do_POST, h1]
  rw [if_neg h2, if_neg h3, h4]

/-- do_POST when the inference call raises. -/
theorem do_POST_fail (o : Oracle) (p : String) (req : HttpRequest) (n : Int) (msg : String)
    (h1 : contentLengthOf req.contentLength = Except.ok n)
    (h2 : ¬ n = 0)
    (h3 : ¬ (req.body.take n.toNat).length < 44)
    (h4 : o p serverParams = Except.error msg) :
    do_POST o p req =
      (errorResponse msg,
       [Event.readBody n, Event.createTemp p (req.body.take n.toNat),
        Event.invoke p serverParams, Event.deleteTemp p]) := by
  simp only [do_POST, h1]
  rw [if_neg h2, if_neg h3, h4]

/-- transcribe_wav when the wave probe raises. -/
theorem transcribe_wav_waveErr (wc : WaveCheck) (o : Oracle) (p : String) (b : List Nat)
    (msg : String) (h : wc b = Except.error msg) :
    transcribe_wav wc o p b = (Except.error msg, []) := by
  simp [transcribe_wav, h]

/-- transcribe_wav when inference succeeds. -/
theorem transcribe_wav_ok (wc : WaveCheck) (o : Oracle) (p : String) (b : List Nat)
    (r : Int) (segs : List Segment) (info : TranscribeInfo)
    (h1 : wc b = Except.ok r)
    (h2 : o p cliParams = Except.ok (segs, info)) :
    transcribe_wav wc o p b =
      (Except.ok (TranscriptionResult.ok (pyStrip (String.join (segs.map Segment.text)))
         info.language none info.duration),
       [Event.createTemp p b, Event.invoke p cliParams, Event.deleteTemp p]) := by
  simp [transcribe_wav, h1, h2]

/-- transcribe_wav when inference raises. -/
theorem transcribe_wav_fail (wc : WaveCheck) (o : Oracle) (p : String) (b : List Nat)
    (r : Int) (msg : String)
    (h1 : wc b = Except.ok r)
    (h2 : o p cliParams = Except.error msg) :
    transcribe_wav wc o p b =
      (Except.error msg,
       [Event.createTemp p b, Event.invoke p cliParams, Event.deleteTemp p]) := by
  simp [transcribe_wav, h1, h2]

/-- cliMain on a payload under the 44-byte floor. -/
theorem cliMain_short (wc : WaveCheck) (o : Oracle) (p : String) (b : List Nat)
    (h : b.length < 44) :
    cliMain wc o p b = (TranscriptionResult.err "Invalid WAV data", []) := by
  simp [cliMain, h]

/-- The CLI run's event trace is the transcribe_wav trace, and empty on
the short-payload rejection. -/
theorem cliMain_snd (wc : WaveCheck) (o : Oracle) (p : String) (b : List Nat) :
    (cliMain wc o p b).2 = if b.length < 44 then [] else (transcribe_wav wc o p b).2 := by
  by_cases h : b.length < 44
  · simp [cliMain, h]
  · rcases he : transcribe_wav wc o p b with ⟨r, evs⟩
    cases r <;> simp [cliMain, h, he]

/-- C1: the claim as stated is false for the empty payload: an empty POST
body (Content-Length 0) is shorter than 44 bytes, yet the server replies
with the success-false message "No audio data received", which does not
begin with "Invalid WAV data". -/
theorem C1_counterexample :
    (do_POST oracleBoom "/tmp/t.wav" reqEmpty).1 =
      ServerResponse.transcription 200 (TranscriptionResult.err "No audio data received") ∧
    strBeginsWith "Invalid WAV data" "No audio data received" = false ∧
    reqEmpty.body.length < 44 := by
  decide

/-- C1 (amended): for every CLI payload shorter than 44 bytes the result is
success-false with error exactly "Invalid WAV data"; for every server POST
whose Content-Length parses to a nonzero value and whose body is shorter
than 44 bytes the result is a 200 success-false JSON whose error begins
with "Invalid WAV data"; in both cases the event trace contains no
inference invocation. -/
theorem C1_short_input (wc : WaveCheck) (o : Oracle) (p : String) (b : List Nat)
    (req : HttpRequest) (n : Int)
    (hb : b.length < 44)
    (h1 : contentLengthOf req.contentLength = Except.ok n) (h2 : ¬ n = 0)
    (hr : req.body.length < 44) :
    cliMain wc o p b = (TranscriptionResult.err "Invalid WAV data", []) ∧
    strBeginsWith "Invalid WAV data" "Invalid WAV data" = true ∧
    do_POST o p req =
      (ServerResponse.transcription 200 (TranscriptionResult.err "Invalid WAV data (too short)"),
       [Event.readBody n]) ∧
    strBeginsWith "Invalid WAV data" "Invalid WAV data (too short)" = true ∧
    (cliMain wc o p b).2.filter isInvoke = [] ∧
    (do_POST o p req).2.filter isInvoke = [] := by
  have h3 : (req.body.take n.toNat).length < 44 :=
    lt_of_le_of_lt (by rw [List.length_take]; exact min_le_right _ _) hr
  have hcli := cliMain_short wc o p b hb
  have hsrv := do_POST_short o p req n h1 h2 h3
  refine ⟨hcli, by decide, hsrv, by decide, ?_, ?_⟩
  · rw [hcli]; rfl
  · rw [hsrv]; rfl

/-- C1 witness: the amended statement at the empty CLI payload and a
10-byte server payload. -/
theorem C1_witness :
    cliMain waveOk16k oracleBoom "/tmp/t.wav" [] = (TranscriptionResult.err "Invalid WAV data", []) ∧
    strBeginsWith "Invalid WAV data" "Invalid WAV data" = true ∧
    do_POST oracleBoom "/tmp/t.wav" req10 =
      (ServerResponse.transcription 200 (TranscriptionResult.err "Invalid WAV data (too short)"),
       [Event.readBody 10]) ∧
    strBeginsWith "Invalid WAV data" "Invalid WAV data (too short)" = true ∧
    (cliMain waveOk16k oracleBoom "/tmp/t.wav" []).2.filter isInvoke = [] ∧
    (do_POST oracleBoom "/tmp/t.wav" req10).2.filter isInvoke = [] :=
  C1_short_input waveOk16k oracleBoom "/tmp/t.wav" [] req10 10 (by decide) rfl (by decide) (by decide)

/-- C2: on a successful server transcription, the returned text is the
stripped separator-free concatenation of the segments, blanked to the
empty string exactly when one of the listed hallucination phrases occurs
in it as a substring, and unchanged otherwise; language, probability and
duration come from the model's info record. -/
theorem C2_hallucination_filter (o : Oracle) (p : String) (req : HttpRequest) (n : Int)
    (segs : List Segment) (info : TranscribeInfo)
    (h1 : contentLengthOf req.contentLength = Except.ok n)
    (h2 : ¬ n = 0)
    (h3 : ¬ (req.body.take n.toNat).length < 44)
    (h4 : o p serverParams = Except.ok (segs, info)) :
    (do_POST o p req).1 =
      ServerResponse.transcription 200
        (TranscriptionResult.ok
          (if hallucinations.any
                (fun h => containsSub h.data (pyStrip (String.join (segs.map Segment.text))).data)
           then "" else pyStrip (String.join (segs.map Segment.text)))
          info.language (some info.language_probability) info.duration) := by
  rw [do_POST_run o p req n segs info h1 h2 h3 h4, applyHallucinationFilter_eq]

/-- C2 witness: a transcript equal to a blocked phrase is blanked. -/
theorem C2_witness :
    (do_POST (oracleOfText "ご視聴ありがとうございました") "/tmp/t.wav" req44).1 =
      ServerResponse.transcription 200
        (TranscriptionResult.ok
          (if hallucinations.any
                (fun h => containsSub h.data
                  (pyStrip (String.join (([{ text := "ご視聴ありがとうございました" }] : List Segment).map Segment.text))).data)
           then "" else pyStrip (String.join (([{ text := "ご視聴ありがとうございました" }] : List Segment).map Segment.text)))
          "ja" (some (9 / 10 : Rat)) 3) :=
  C2_hallucination_filter (oracleOfText "ご視聴ありがとうございました") "/tmp/t.wav" req44 44
    [{ text := "ご視聴ありがとうございました" }]
    { language := "ja", language_probability := 9 / 10, duration := 3 }
    rfl (by decide) (by decide) rfl

/-- C3: replaying the temp-file events of any CLI run, any transcribe_wav
call and any server POST over an empty disk leaves the disk empty: every
created temp file is deleted before the call returns, on the success path
and on the exception path alike. -/
theorem C3_temp_file_cleanup (wc : WaveCheck) (o : Oracle) (p : String)
    (b : List Nat) (req : HttpRequest) :
    runDisk [] (cliMain wc o p b).2 = [] ∧
    runDisk [] (transcribe_wav wc o p b).2 = [] ∧
    runDisk [] (do_POST o p req).2 = [] := by
  have htw : runDisk [] (transcribe_wav wc o p b).2 = [] := by
    cases h1 : wc b with
    | error msg => rw [transcribe_wav_waveErr wc o p b msg h1]; rfl
    | ok r =>
      cases h2 : o p cliParams with
      | error msg =>
        rw [transcribe_wav_fail wc o p b r msg h1 h2]
        simp [runDisk, List.erase_cons_head]
      | ok pr =>
        obtain ⟨segs, info⟩ := pr
        rw [transcribe_wav_ok wc o p b r segs info h1 h2]
        simp [runDisk, List.erase_cons_head]
  refine ⟨?_, htw, ?_⟩
  · rw [cliMain_snd]
    by_cases h : b.length < 44
    · rw [if_pos h]; rfl
    · rw [if_neg h]; exact htw
  · cases h1 : contentLengthOf req.contentLength with
    | error msg => rw [do_POST_parseErr o p req msg h1]; rfl
    | ok n =>
      by_cases h2 : n = 0
      · subst h2; rw [do_POST_zero o p req h1]; rfl
      · by_cases h3 : (req.body.take n.toNat).length < 44
        · rw [do_POST_short o p req n h1 h2 h3]; rfl
        · cases h4 : o p serverParams with
          | error msg =>
            rw [do_POST_fail o p req n msg h1 h2 h3 h4]
            simp [runDisk, List.erase_cons_head]
          | ok pr =>
            obtain ⟨segs, info⟩ := pr
            rw [do_POST_run o p req n segs info h1 h2 h3 h4]
            simp [runDisk, List.erase_cons_head]

/-- C4: every POST request is answered with HTTP status 200 carrying a
transcription JSON whose success field is true exactly on the text /
language / probability / duration form and false exactly on the
error-message form; no error is signalled through the HTTP status. -/
theorem C4_always_200 (o : Oracle) (p : String) (req : HttpRequest) :
    (do_POST o p req).1.statusCode = 200 ∧
    ∃ r, (do_POST o p req).1 = ServerResponse.transcription 200 r ∧
      (r.successField = true → ∃ t l lp d, r = TranscriptionResult.ok t l lp d) ∧
      (r.successField = false → ∃ msg, r = TranscriptionResult.err msg) := by
  have key : ∃ r, (do_POST o p req).1 = ServerResponse.transcription 200 r := by
    cases h1 : contentLengthOf req.contentLength with
    | error msg =>
      exact ⟨TranscriptionResult.err msg, by rw [do_POST_parseErr o p req msg h1]; rfl⟩
    | ok n =>
      by_cases h2 : n = 0
      · subst h2
        exact ⟨TranscriptionResult.err "No audio data received", by rw [do_POST_zero o p req h1]; rfl⟩
      · by_cases h3 : (req.body.take n.toNat).length < 44
        · exact ⟨TranscriptionResult.err "Invalid WAV data (too short)",
            by rw [do_POST_short o p req n h1 h2 h3]; rfl⟩
        · cases h4 : o p serverParams with
          | error msg =>
            exact ⟨TranscriptionResult.err msg, by rw [do_POST_fail o p req n msg h1 h2 h3 h4]; rfl⟩
          | ok pr =>
            obtain ⟨segs, info⟩ := pr
            exact ⟨TranscriptionResult.ok
                (applyHallucinationFilter hallucinations (pyStrip (String.join (segs.map Segment.text))))
                info.language (some info.language_probability) info.duration,
              by rw [do_POST_run o p req n segs info h1 h2 h3 h4]⟩
  obtain ⟨r, hr⟩ := key
  refine ⟨by rw [hr]; rfl, r, hr, ?_, ?_⟩
  · intro hs
    cases r with
    | ok t l lp d => exact ⟨t, l, lp, d, rfl⟩
    | err msg => simp [TranscriptionResult.successField] at hs
  · intro hs
    cases r with
    | ok t l lp d => simp [TranscriptionResult.successField] at hs
    | err msg => exact ⟨msg, rfl⟩

/-- C5: GET /health returns HTTP 200 with status ok and the resolved
device and compute values: when cuda was configured but torch is missing
or reports no CUDA device, the reported device is cpu and the compute
type int8, not the originally configured values. -/
theorem C5_health_fallback (e : ServerEnv)
    (h1 : e.deviceCfg = "cuda")
    (h2 : e.torchInstalled = false ∨ e.cudaAvailable = false) :
    do_GET e "/health" =
      ServerResponse.health 200
        { status := "ok", model := e.modelSize, device := "cpu", compute_type := "int8" } := by
  have hd : actual_device e = "cpu" := by
    rcases h2 with h | h <;> simp [actual_device, get_device, h1, h]
  simp [do_GET, actual_compute_type, get_compute_type, hd]

/-- C5 witness: cuda configured with float16, torch present, no CUDA
device: health reports cpu and int8. -/
theorem C5_witness :
    do_GET envCudaOff "/health" =
      ServerResponse.health 200
        { status := "ok", model := "small", device := "cpu", compute_type := "int8" } :=
  C5_health_fallback envCudaOff rfl (Or.inr rfl)

/-- C6: the claim as stated is false for the CLI: a concrete successful
CLI run invokes the library with cliParams, which passes no
initial_prompt, no no_speech_threshold and no speech_pad_ms keyword —
the CLI call has no fixed priming prompt and no no-speech confidence
threshold. -/
theorem C6_counterexample :
    (cliMain waveOk16k (oracleOfText "テスト") "/tmp/t.wav" (List.replicate 44 0)).2 =
      [Event.createTemp "/tmp/t.wav" (List.replicate 44 0),
       Event.invoke "/tmp/t.wav" cliParams, Event.deleteTemp "/tmp/t.wav"] ∧
    cliParams.initial_prompt = none ∧
    cliParams.no_speech_threshold = none ∧
    cliParams.speech_pad_ms = none := by
  decide

/-- C6 (amended): every inference invocation of the server uses the fixed
serverParams (language ja, beam 5, VAD with silence and padding
thresholds, the fixed priming prompt, no-speech threshold 0.6), and every
inference invocation of the CLI uses the fixed cliParams (language ja,
beam 5, VAD with a silence threshold, but no priming prompt and no
no-speech threshold). -/
theorem C6_fixed_params :
    (∀ (o : Oracle) (p : String) (req : HttpRequest) (ev : Event),
        ev ∈ (do_POST o p req).2 → isInvoke ev = true → ev = Event.invoke p serverParams) ∧
    (∀ (wc : WaveCheck) (o : Oracle) (p : String) (b : List Nat) (ev : Event),
        ev ∈ (cliMain wc o p b).2 → isInvoke ev = true → ev = Event.invoke p cliParams) ∧
    serverParams.language = "ja" ∧ serverParams.beam_size = 5 ∧
    serverParams.vad_filter = true ∧ serverParams.min_silence_duration_ms = 1000 ∧
    serverParams.speech_pad_ms = some 400 ∧
    serverParams.initial_prompt =
      some "以下は、マイクからの入力音声に対する、ノイズを除去した日本語の文字起こしです。" ∧
    serverParams.no_speech_threshold = some (6 / 10 : Rat) ∧
    cliParams.language = "ja" ∧ cliParams.beam_size = 5 ∧
    cliParams.vad_filter = true ∧ cliParams.min_silence_duration_ms = 500 ∧
    cliParams.initial_prompt = none ∧ cliParams.no_speech_threshold = none := by
  refine ⟨?_, ?_, rfl, rfl, rfl, rfl, rfl, rfl, rfl, rfl, rfl, rfl, rfl, rfl, rfl⟩
  · intro o p req ev hmem hinv
    cases h1 : contentLengthOf req.contentLength with
    | error msg =>
      rw [do_POST_parseErr o p req msg h1] at hmem
      simp at hmem
    | ok n =>
      by_cases h2 : n = 0
      · subst h2
        rw [do_POST_zero o p req h1] at hmem
        simp at hmem
      · by_cases h3 : (req.body.take n.toNat).length < 44
        · rw [do_POST_short o p req n h1 h2 h3] at hmem
          simp at hmem
          subst hmem
          simp [isInvoke] at hinv
        · cases h4 : o p serverParams with
          | error msg =>
            rw [do_POST_fail o p req n msg h1 h2 h3 h4] at hmem
            simp at hmem
            rcases hmem with h | h | h | h <;> subst h <;>
              first
                | rfl
                | simp [isInvoke] at hinv
          | ok pr =>
            obtain ⟨segs, info⟩ := pr
            rw [do_POST_run o p req n segs info h1 h2 h3 h4] at hmem
            simp at hmem
            rcases hmem with h | h | h | h <;> subst h <;>
              first
                | rfl
                | simp [isInvoke] at hinv
  · intro wc o p b ev hmem hinv
    rw [cliMain_snd] at hmem
    by_cases h : b.length < 44
    · rw [if_pos h] at hmem
      simp at hmem
    · rw [if_neg h] at hmem
      cases h1 : wc b with
      | error msg =>
        rw [transcribe_wav_waveErr wc o p b msg h1] at hmem
        simp at hmem
      | ok r =>
        cases h2 : o p cliParams with
        | error msg =>
          rw [transcribe_wav_fail wc o p b r msg h1 h2] at hmem
          simp at hmem
          rcases hmem with h | h | h <;> subst h <;>
            first
              | rfl
              | simp [isInvoke] at hinv
        | ok pr =>
          obtain ⟨segs, info⟩ := pr
          rw [transcribe_wav_ok wc o p b r segs info h1 h2] at hmem
          simp at hmem
          rcases hmem with h | h | h <;> subst h <;>
            first
              | rfl
              | simp [isInvoke] at hinv

/-- C6 witness: the amended statement at a concrete server run and a
concrete CLI run. -/
theorem C6_witness :
    Event.invoke "/tmp/t.wav" serverParams = Event.invoke "/tmp/t.wav" serverParams ∧
    Event.invoke "/tmp/t.wav" cliParams = Event.invoke "/tmp/t.wav" cliParams :=
  ⟨C6_fixed_params.1 (oracleOfText "テスト") "/tmp/t.wav" req44
      (Event.invoke "/tmp/t.wav" serverParams)
      (by
        rw [do_POST_run (oracleOfText "テスト") "/tmp/t.wav" req44 44 [{ text := "テスト" }]
              { language := "ja", language_probability := 9 / 10, duration := 3 }
              rfl (by decide) (by decide) rfl]
        simp)
      rfl,
   C6_fixed_params.2.1 waveOk16k (oracleOfText "テスト") "/tmp/t.wav" (List.replicate 44 0)
      (Event.invoke "/tmp/t.wav" cliParams)
      (by
        rw [cliMain_snd, if_neg (by decide),
            transcribe_wav_ok waveOk16k (oracleOfText "テスト") "/tmp/t.wav"
              (List.replicate 44 0) 16000 [{ text := "テスト" }]
              { language := "ja", language_probability := 9 / 10, duration := 3 } rfl rfl]
        simp)
      rfl⟩

/-- C7: the claim as stated is false: a PUT request — neither a POST
transcription nor GET /health — is answered with HTTP 501 (the handler
class defines no do_PUT, so the http.server base class sends 501
unsupported method), not 404. -/
theorem C7_counterexample :
    (handleRequest oracleBoom "/tmp/t.wav" envCudaOff reqPut).1 = ServerResponse.httpError 501 ∧
    ¬ (handleRequest oracleBoom "/tmp/t.wav" envCudaOff reqPut).1 = ServerResponse.httpError 404 := by
  decide

/-- C7 (amended): a GET to any path other than /health is answered 404; a
request with any method other than GET and POST is answered 501 by the
base-class dispatch; every POST, whatever its path, is routed to the
transcription handler. -/
theorem C7_routing (o : Oracle) (p : String) (e : ServerEnv) (req : HttpRequest) :
    (req.method = "GET" → ¬ req.path = "/health" →
      (handleRequest o p e req).1 = ServerResponse.httpError 404) ∧
    (¬ req.method = "GET" → ¬ req.method = "POST" →
      (handleRequest o p e req).1 = ServerResponse.httpError 501) ∧
    (req.method = "POST" → handleRequest o p e req = do_POST o p req) := by
  refine ⟨?_, ?_, ?_⟩
  · intro hg hp
    simp [handleRequest, hg, do_GET, hp]
  · intro h1 h2
    simp [handleRequest, h1, h2]
  · intro h
    simp [handleRequest, h]

/-- C7 witness: the amended statement at GET /foo and at PUT /. -/
theorem C7_witness :
    (handleRequest oracleBoom "/tmp/t.wav" envCudaOff reqGetFoo).1 = ServerResponse.httpError 404 ∧
    (handleRequest oracleBoom "/tmp/t.wav" envCudaOff reqPut).1 = ServerResponse.httpError 501 :=
  ⟨(C7_routing oracleBoom "/tmp/t.wav" envCudaOff reqGetFoo).1 rfl (by decide),
   (C7_routing oracleBoom "/tmp/t.wav" envCudaOff reqPut).2.1 (by decide) (by decide)⟩

/-- C8: the claim as stated is false about the output stream: when the
model load raises, the failure message is printed to standard output, not
standard error — the startup log contains no stderr entry at all —
although the process does exit with status 1. -/
theorem C8_counterexample :
    (serverStartup envCudaOff (Except.error "boom")).2 = Except.error 1 ∧
    (OutStream.stdout, "[whisper-server] Failed to load model: boom") ∈
      (serverStartup envCudaOff (Except.error "boom")).1 ∧
    (serverStartup envCudaOff (Except.error "boom")).1.filter
      (fun q => q.1 == OutStream.stderr) = [] := by
  refine ⟨rfl, by decide, by decide⟩

/-- C8 (amended): if loading the model at server startup raises, the
failure is reported on standard output and the process exits with status
1 — the Except.error outcome models sys.exit(1), reached before the HTTP
server object exists, hence before any request is served. -/
theorem C8_load_failure (e : ServerEnv) (msg : String) :
    (serverStartup e (Except.error msg)).2 = Except.error 1 ∧
    (OutStream.stdout, "[whisper-server] Failed to load model: " ++ msg) ∈
      (serverStartup e (Except.error msg)).1 ∧
    ¬ (serverStartup e (Except.error msg)).2 = Except.ok () := by
  refine ⟨rfl, ?_, ?_⟩
  · simp [serverStartup]
  · simp [serverStartup]

/-- C9: the claim as stated is false for a non-numeric Content-Length
value: with the header value abc, int() raises, and the outer except
replies 200 success-false with the ValueError text, not "No audio data
received" (though indeed nothing is read, no temp file is created and
inference is not invoked). -/
theorem C9_counterexample :
    (do_POST oracleBoom "/tmp/t.wav" reqBadLen).1 =
      ServerResponse.transcription 200 (TranscriptionResult.err (intErrMsg "abc")) ∧
    ¬ intErrMsg "abc" = "No audio data received" ∧
    (do_POST oracleBoom "/tmp/t.wav" reqBadLen).2 = [] := by
  decide

/-- C9 (amended): a POST whose Content-Length is absent or resolves to 0
is answered 200 with the success-false body "No audio data received" and
an empty event trace — no body read, no temp file, no inference; one
whose Content-Length value fails int() parsing is answered 200 with the
ValueError text as the error, likewise with an empty trace. -/
theorem C9_content_length (o : Oracle) (p : String) (req : HttpRequest) :
    (contentLengthOf req.contentLength = Except.ok 0 →
      do_POST o p req =
        (ServerResponse.transcription 200 (TranscriptionResult.err "No audio data received"), [])) ∧
    (∀ msg, contentLengthOf req.contentLength = Except.error msg →
      do_POST o p req = (ServerResponse.transcription 200 (TranscriptionResult.err msg), [])) ∧
    contentLengthOf none = Except.ok 0 :=
  ⟨fun h => do_POST_zero o p req h, fun msg h => do_POST_parseErr o p req msg h, rfl⟩

/-- C9 witness: the amended statement at an absent header and at the
header value abc. -/
theorem C9_witness :
    do_POST oracleBoom "/tmp/t.wav" reqNoLen =
      (ServerResponse.transcription 200 (TranscriptionResult.err "No audio data received"), []) ∧
    do_POST oracleBoom "/tmp/t.wav" reqBadLen =
      (ServerResponse.transcription 200 (TranscriptionResult.err (intErrMsg "abc")), []) :=
  ⟨(C9_content_length oracleBoom "/tmp/t.wav" reqNoLen).1 rfl,
   (C9_content_length oracleBoom "/tmp/t.wav" reqBadLen).2.1 (intErrMsg "abc") rfl⟩

/-- C10: when the hallucination filter blanks the transcript, the server
response still has success true and keeps the model-reported language,
language probability and duration — indistinguishable at the interface
from a genuinely silent input. -/
theorem C10_blank_keeps_metadata (o : Oracle) (p : String) (req : HttpRequest) (n : Int)
    (segs : List Segment) (info : TranscribeInfo)
    (h1 : contentLengthOf req.contentLength = Except.ok n)
    (h2 : ¬ n = 0)
    (h3 : ¬ (req.body.take n.toNat).length < 44)
    (h4 : o p serverParams = Except.ok (segs, info))
    (h5 : hallucinations.any
        (fun h => containsSub h.data (pyStrip (String.join (segs.map Segment.text))).data) = true) :
    (do_POST o p req).1 =
      ServerResponse.transcription 200
        (TranscriptionResult.ok "" info.language (some info.language_probability) info.duration) ∧
    (TranscriptionResult.ok "" info.language (some info.language_probability) info.duration).successField
      = true := by
  refine ⟨?_, rfl⟩
  rw [do_POST_run o p req n segs info h1 h2 h3 h4, applyHallucinationFilter_eq]
  simp [h5]

/-- C10 witness: a transcript equal to a blocked phrase is blanked while
success, language, probability and duration are kept. -/
theorem C10_witness :
    (do_POST (oracleOfText "ご視聴ありがとうございました") "/tmp/t.wav" req44).1 =
      ServerResponse.transcription 200
        (TranscriptionResult.ok "" "ja" (some (9 / 10 : Rat)) 3) ∧
    (TranscriptionResult.ok "" "ja" (some (9 / 10 : Rat)) 3).successField = true :=
  C10_blank_keeps_metadata (oracleOfText "ご視聴ありがとうございました") "/tmp/t.wav" req44 44
    [{ text := "ご視聴ありがとうございました" }]
    { language := "ja", language_probability := 9 / 10, duration := 3 }
    rfl (by decide) (by decide) rfl (by decide)
